import Mathlib

/-!
Verification of the applied-maths book-viewer builder (`src/build.py`, with the
archive variant `src/archive/looker-build.py` where the claims concern it).

The Python code is shallowly embedded: file-system access is abstracted to the
lists of names the code would enumerate; each Python function becomes a Lean
function over those lists; Python `int(...)` / `str.isdigit` / `str.strip` /
`str.split` / `pathlib` suffix behaviour is modelled explicitly (ASCII digits
and ASCII whitespace, which is what the repository's data uses).
-/

/-- Value stored in a parsed `key=value` map: `int(v) if v.isdigit() else v`. -/
inductive PValue where
  | pInt : Nat → PValue
  | pStr : String → PValue
deriving DecidableEq, Repr

/-- A parsed `SECTION` record of the TOC grammar (`end` is a Lean keyword,
rendered `end_`). -/
structure TocSection where
  code : String
  title : String
  start : PValue
  end_ : PValue
deriving DecidableEq, Repr

/-- A parsed `CHAPTER` record of the TOC grammar, with its nested sections. -/
structure Chapter where
  code : String
  title : String
  start : PValue
  end_ : PValue
  sections : List TocSection
deriving DecidableEq, Repr

/-- The pair `(toc_data, offset)` returned by `build.py`'s `parse_toc`. -/
structure TocResult where
  chapters : List Chapter
  offset : Int
deriving DecidableEq, Repr

/-- Loop state of `parse_toc`.  In the Python code `current_chapter` always
aliases the most recently appended element of `result["chapters"]`, so the
state is rendered as the chapter list in reverse order (head = current
chapter) together with the `offset` variable. -/
structure ParseState where
  revChapters : List Chapter
  offset : Int
deriving DecidableEq, Repr

/-- Python `s.strip()`: drop leading and trailing whitespace (space, tab, CR,
LF — the whitespace the repository's data contains). -/
def pyStrip (s : String) : String :=
  String.mk (((s.data.dropWhile Char.isWhitespace).reverse.dropWhile Char.isWhitespace).reverse)

/-- Python `str.split(sep)` for a one-character separator, on code points:
`"" → [""]`, separators at the ends produce empty fields. -/
def pySplitChar (sep : Char) : List Char → List (List Char)
  | [] => [[]]
  | c :: cs =>
    let r := pySplitChar sep cs
    if c = sep then [] :: r
    else
      match r with
      | [] => [[c]]
      | h :: t => (c :: h) :: t

/-- See `pySplitChar`. -/
def pySplit (s : String) (sep : Char) : List String :=
  (pySplitChar sep s.data).map String.mk

/-- Rejoin fields with the separator (used to model Python
`s.split(sep, 1)[1]`, which keeps later separators in the value). -/
def joinWith (sep : Char) : List (List Char) → List Char
  | [] => []
  | [x] => x
  | x :: xs => x ++ sep :: joinWith sep xs

/-- Python `s.startswith(pre)`. -/
def pyStartsWith (s pre : String) : Bool :=
  pre.data.isPrefixOf s.data

/-- Python `s.upper()` (ASCII letters). -/
def pyUpper (s : String) : String :=
  String.mk (s.data.map Char.toUpper)

/-- Python `s.lower()` (ASCII letters). -/
def pyLower (s : String) : String :=
  String.mk (s.data.map Char.toLower)

/-- Digits of an ASCII decimal numeral to a natural number. -/
def digitsToNat (cs : List Char) : Nat :=
  cs.foldl (fun n c => 10 * n + (c.toNat - 48)) 0

/-- Python `s.isdigit()` (ASCII): nonempty and all characters are digits. -/
def isPyDigits (s : String) : Bool :=
  !s.data.isEmpty && s.data.all Char.isDigit

/-- After the first digit of a Python integer literal: digits with single
underscores allowed between digits (`1_0` is legal, `1__0` and `1_` are not). -/
def pyIntRun : List Char → Bool
  | [] => true
  | '_' :: c :: cs => c.isDigit && pyIntRun cs
  | c :: cs => c.isDigit && pyIntRun cs

/-- The digit part of Python `int(...)`: nonempty, starts with a digit, single
underscores only between digits.  Returns its value. -/
def pyIntDigits (cs : List Char) : Option Nat :=
  match cs with
  | [] => none
  | c :: rest =>
    if c.isDigit && pyIntRun rest then
      some (digitsToNat ((c :: rest).filter (fun d => d ≠ '_')))
    else none

/-- Python `int(s)` on a string: optional surrounding whitespace, optional
sign, then a digit run (underscore-separated groups allowed); `none` models
`ValueError`. -/
def pyInt (s : String) : Option Int :=
  match (pyStrip s).data with
  | '+' :: rest => (pyIntDigits rest).map (fun n => (n : Int))
  | '-' :: rest => (pyIntDigits rest).map (fun n => -(n : Int))
  | rest => (pyIntDigits rest).map (fun n => (n : Int))

/-- Python `str.splitlines`: lines split at `\n`, `\r\n` or `\r`, with no
entry for a trailing terminator (`""` gives `[]`, `"a\n"` gives `["a"]`). -/
def splitlinesAux : List Char → List Char → List String
  | [], [] => []
  | [], acc => [String.mk acc.reverse]
  | '\r' :: '\n' :: cs, acc => String.mk acc.reverse :: splitlinesAux cs []
  | '\n' :: cs, acc => String.mk acc.reverse :: splitlinesAux cs []
  | '\r' :: cs, acc => String.mk acc.reverse :: splitlinesAux cs []
  | c :: cs, acc => splitlinesAux cs (c :: acc)

/-- See `splitlinesAux`. -/
def pySplitlines (s : String) : List String :=
  splitlinesAux s.data []

/-- Tokens of a line: `[p.strip() for p in line.split("|") if p.strip() != ""]`. -/
def tokensOf (line : String) : List String :=
  ((pySplit line '|').map pyStrip).filter (fun s => s ≠ "")

/-- The `kv` dictionary built from the tokens after the title:
`if "=" in p: k, v = p.split("=", 1); kv[k.strip()] = int(v) if v.isdigit() else v`
(with `v` stripped first).  Rendered as the association list in assignment
order; lookup takes the last binding, matching dict overwrite semantics. -/
def kvPairs (toks : List String) : List (String × PValue) :=
  toks.filterMap (fun p =>
    match pySplitChar '=' p.data with
    | k :: v1 :: vrest =>
      let v := pyStrip (String.mk (joinWith '=' (v1 :: vrest)))
      some (pyStrip (String.mk k),
        if isPyDigits v then PValue.pInt (digitsToNat v.data) else PValue.pStr v)
    | _ => none)

/-- Python `dict.get k` on an association list where later bindings overwrite
earlier ones. -/
def dictGet (kv : List (String × PValue)) (k : String) : Option PValue :=
  (kv.reverse.find? (fun p => p.1 == k)).map (fun p => p.2)

/-- Resolution `kv.get("start", 1)`. -/
def startOf (toks : List String) : PValue :=
  (dictGet (kvPairs toks) "start").getD (PValue.pInt 1)

/-- Resolution `kv.get("end", kv.get("start", 1))`. -/
def endOf (toks : List String) : PValue :=
  (dictGet (kvPairs toks) "end").getD (startOf toks)

/-- The chapter constructed from a `CHAPTER` token list (`parts`). -/
def mkChapter (parts : List String) : Chapter :=
  { code := parts.getD 1 ""
    title := parts.getD 2 ""
    start := startOf (parts.drop 3)
    end_ := endOf (parts.drop 3)
    sections := [] }

/-- The section constructed from a `SECTION` token list, appended to the
current chapter. -/
def addSection (c : Chapter) (parts : List String) : Chapter :=
  { c with sections := c.sections ++
      [{ code := parts.getD 1 ""
         title := parts.getD 2 ""
         start := startOf (parts.drop 3)
         end_ := endOf (parts.drop 3) }] }

/-- Dispatch on the token list of one non-blank non-comment line of
`build.py`'s `parse_toc`: `OFFSET` with at least 2 tokens sets the offset when
its second token is a valid Python integer; `CHAPTER`/`SECTION` with at least
3 tokens append records; everything else is skipped. -/
def recordStep (st : ParseState) (parts : List String) : ParseState :=
  if pyUpper (parts.headD "") = "OFFSET" ∧ 2 ≤ parts.length then
    match pyInt (parts.getD 1 "") with
    | some n => { st with offset := n }
    | none => st
  else if pyUpper (parts.headD "") = "CHAPTER" ∧ 3 ≤ parts.length then
    { st with revChapters := mkChapter parts :: st.revChapters }
  else if pyUpper (parts.headD "") = "SECTION" ∧ 3 ≤ parts.length then
    match st.revChapters with
    | [] => st
    | c :: cs => { st with revChapters := addSection c parts :: cs }
  else st

/-- One iteration of `parse_toc`'s line loop in `build.py`: strip the line,
skip blanks and `#` comments, otherwise tokenize and dispatch. -/
def buildStep (st : ParseState) (raw : String) : ParseState :=
  if pyStrip raw = "" ∨ pyStartsWith (pyStrip raw) "#" then st
  else recordStep st (tokensOf (pyStrip raw))

/-- Folding `build.py`'s line loop over a list of lines. -/
def runLines (st : ParseState) (lines : List String) : ParseState :=
  lines.foldl buildStep st

/-- The `parse_toc` of `build.py` on an already-split line list. -/
def parse_toc_lines (lines : List String) : TocResult :=
  let st := runLines { revChapters := [], offset := 0 } lines
  { chapters := st.revChapters.reverse, offset := st.offset }

/-- The `parse_toc` of `build.py`: `none` models an absent (or non-existing) TOC
file, `some s` the file's decoded text. -/
def parse_toc (file : Option String) : TocResult :=
  match file with
  | none => { chapters := [], offset := 0 }
  | some content => parse_toc_lines (pySplitlines content)

/-- The `IMAGE_EXTS` set of `build.py` (matched against the lower-cased suffix). -/
def IMAGE_EXTS : List String := [".webp", ".jpg", ".jpeg", ".png", ".gif"]

/-- Python `pathlib.PurePath.suffix`: the extension from the last dot of the name,
dot included; empty when there is no dot, the dot is the first character, or
the dot is the last character. -/
def pathSuffix (name : String) : String :=
  let cs := name.data
  let tail := cs.reverse.takeWhile (fun c => c ≠ '.')
  if tail.length = cs.length then ""
  else if tail.length = 0 then ""
  else if tail.length = cs.length - 1 then ""
  else String.mk ('.' :: tail.reverse)

/-- Test `f.suffix.lower() in IMAGE_EXTS`. -/
def isImageName (f : String) : Bool :=
  IMAGE_EXTS.contains (pyLower (pathSuffix f))

/-- Python `re.search(r"(\d+)", name)`: the first maximal run of decimal digits in
the name, as a number; `none` when the name has no digit. -/
def firstDigitRun : List Char → Option (List Char)
  | [] => none
  | c :: cs =>
    if c.isDigit then some (c :: cs.takeWhile Char.isDigit)
    else firstDigitRun cs

/-- The value of the first digit run of a name, if any. -/
def firstDigitNum (s : String) : Option Nat :=
  (firstDigitRun s.data).map digitsToNat

/-- The `num_key` of `find_images`:
`(int(m.group(1)), p.name.lower()) if m else (999999, p.name.lower())`. -/
def num_key (name : String) : Nat × String :=
  match firstDigitNum name with
  | some n => (n, pyLower name)
  | none => (999999, pyLower name)

/-- Python tuple comparison on `num_key` values: lexicographic, integers
first, then the lower-cased name by code points. -/
def keyLE (a b : String) : Prop :=
  (num_key a).1 < (num_key b).1 ∨
    ((num_key a).1 = (num_key b).1 ∧ (num_key a).2 ≤ (num_key b).2)

instance : DecidableRel keyLE := fun a b => by
  unfold keyLE
  infer_instance

instance : IsTrans String keyLE where
  trans := by
    intro a b c hab hbc
    rcases hab with hab | ⟨hab, hab2⟩ <;> rcases hbc with hbc | ⟨hbc, hbc2⟩
    · exact Or.inl (Nat.lt_trans hab hbc)
    · exact Or.inl (hbc ▸ hab)
    · exact Or.inl (hab ▸ hbc)
    · exact Or.inr ⟨hab.trans hbc, le_trans hab2 hbc2⟩

instance : IsTotal String keyLE where
  total := by
    intro a b
    rcases Nat.lt_trichotomy (num_key a).1 (num_key b).1 with h | h | h
    · exact Or.inl (Or.inl h)
    · rcases le_total (num_key a).2 (num_key b).2 with h2 | h2
      · exact Or.inl (Or.inr ⟨h, h2⟩)
      · exact Or.inr (Or.inr ⟨h.symm, h2⟩)
    · exact Or.inr (Or.inl h)

/-- The `find_images` of `build.py` on the file names of a folder: keep the
recognized image names and sort them by `num_key` (Python's stable sort by
key, rendered with insertion sort, which is also stable). -/
def find_images (files : List String) : List String :=
  List.insertionSort keyLE (files.filter isImageName)

/-- An immediate subdirectory of a book directory: its name and the names of
the files it directly contains. -/
structure Dir where
  name : String
  files : List String
deriving DecidableEq, Repr

/-- A book directory: the file names at its root and its immediate
subdirectories, in the order the operating system enumerates them. -/
structure BookDir where
  files : List String
  subdirs : List Dir
deriving DecidableEq, Repr

/-- The thumbnail-alias exclusion set of `find_pages_folder`. -/
def THUMB_NAMES : List String := ["thumbs", "thumb", "thumbnails", "tn"]

/-- Result of `find_pages_folder`: the book directory itself, or one of its
subfolders. -/
inductive PagesResult where
  | root : PagesResult
  | sub : String → PagesResult
deriving DecidableEq, Repr

/-- The `find_pages_folder` of `build.py`: the book folder itself when it holds
images, else the first enumerated non-thumbnail subfolder holding images. -/
def find_pages_folder (b : BookDir) : Option PagesResult :=
  if (find_images b.files).isEmpty = false then some PagesResult.root
  else
    (b.subdirs.find? (fun d =>
        !(THUMB_NAMES.contains (pyLower d.name)) && !(find_images d.files).isEmpty)).map
      (fun d => PagesResult.sub d.name)

namespace Looker

/-- One line of the offset pre-scan of `parse_toc` in
`src/archive/looker-build.py`: a stripped line starting with `# offset=`
replaces the running offset by `int(line.split("=")[1].strip())` when that
parses, and leaves it unchanged on `ValueError`; every other line leaves it
unchanged. -/
def offsetStep (offset : Int) (raw : String) : Int :=
  if pyStartsWith (pyStrip raw) "# offset=" then
    match pyInt (pyStrip ((pySplit (pyStrip raw) '=').getD 1 "")) with
    | some n => n
    | none => offset
  else offset

/-- The offset produced by the pre-scan of `parse_toc` in
`src/archive/looker-build.py` (initial value 0). -/
def parse_toc_offset (lines : List String) : Int :=
  lines.foldl offsetStep 0

/-- The per-page record of `build_looker` in `src/archive/looker-build.py`. -/
structure PageInfo where
  image_index : Nat
  book_page : Int
deriving DecidableEq, Repr

/-- The `page_info` loop of `build_looker`:
`for i, img in enumerate(images): book_page = i + 1 - offset`. -/
def build_page_info (images : List String) (offset : Int) : List PageInfo :=
  images.enum.map (fun p => { image_index := p.1, book_page := (p.1 : Int) + 1 - offset })

end Looker

/-! ## Proof infrastructure -/

/-- The chapter-list effect of `recordStep`, isolated: the `OFFSET` branch of
the dispatch never touches the chapter list. -/
def recordStepRev (rc : List Chapter) (parts : List String) : List Chapter :=
  if pyUpper (parts.headD "") = "OFFSET" ∧ 2 ≤ parts.length then rc
  else if pyUpper (parts.headD "") = "CHAPTER" ∧ 3 ≤ parts.length then
    mkChapter parts :: rc
  else if pyUpper (parts.headD "") = "SECTION" ∧ 3 ≤ parts.length then
    match rc with
    | [] => rc
    | c :: cs => addSection c parts :: cs
  else rc

theorem recordStep_revChapters (st : ParseState) (parts : List String) :
    (recordStep st parts).revChapters = recordStepRev st.revChapters parts := by
  unfold recordStep recordStepRev
  split_ifs with h1 h2 h3
  · split <;> rfl
  · rfl
  · cases hrc : st.revChapters with
    | nil => exact hrc
    | cons c cs => rfl
  · rfl

theorem buildStep_rev_congr (s t : ParseState) (raw : String)
    (h : s.revChapters = t.revChapters) :
    (buildStep s raw).revChapters = (buildStep t raw).revChapters := by
  unfold buildStep
  split_ifs
  · exact h
  · rw [recordStep_revChapters, recordStep_revChapters, h]

theorem runLines_rev_congr (lines : List String) :
    ∀ s t : ParseState, s.revChapters = t.revChapters →
      (runLines s lines).revChapters = (runLines t lines).revChapters := by
  induction lines with
  | nil => intro s t h; exact h
  | cons l ls ih =>
    intro s t h
    exact ih (buildStep s l) (buildStep t l) (buildStep_rev_congr s t l h)

theorem build_page_info_eq (images : List String) (offset : Int) :
    Looker.build_page_info images offset =
      (List.range images.length).map
        (fun i => { image_index := i, book_page := (i : Int) + 1 - offset }) := by
  rw [Looker.build_page_info, ← List.enum_map_fst images, List.map_map]
  rfl

theorem looker_offset_append (ls : List String) (raw : String) :
    Looker.parse_toc_offset (ls ++ [raw]) =
      Looker.offsetStep (Looker.parse_toc_offset ls) raw := by
  simp [Looker.parse_toc_offset, List.foldl_append]

/-! ## Claims -/

/-- C1 counterexample: the claim says a `# offset=<int>` line is recognized
whitespace-insensitively around `=` and sets the TOC Document's offset.  On
the code, `# offset = 3` (space before `=`) is not recognized by the archive
parser, and the production parser of `build.py` never reads an offset from a
`#` line at all. -/
theorem offset_comment_counterexample :
    Looker.parse_toc_offset ["# offset = 3"] = 0 ∧
    (parse_toc (some "# offset=3")).offset = 0 ∧ (0 : Int) ≠ 3 := by
  refine ⟨by decide, by decide, by decide⟩

/-- C1 (amended): in the archive parser, a line whose stripped text begins
exactly with `# offset=` (whitespace tolerated after `=` but not before) sets
the offset to the integer after the first `=`, a malformed integer leaves the
offset at its prior value, such lines may appear anywhere and the last valid
one wins; the production parser of `build.py` ignores every `#` line. -/
theorem offset_comment_amended :
    (∀ (ls : List String) (raw : String) (n : Int),
        pyStartsWith (pyStrip raw) "# offset=" = true →
        pyInt (pyStrip ((pySplit (pyStrip raw) '=').getD 1 "")) = some n →
        Looker.parse_toc_offset (ls ++ [raw]) = n) ∧
    (∀ (ls : List String) (raw : String),
        (pyStartsWith (pyStrip raw) "# offset=" = true →
          pyInt (pyStrip ((pySplit (pyStrip raw) '=').getD 1 "")) = none) →
        Looker.parse_toc_offset (ls ++ [raw]) = Looker.parse_toc_offset ls) ∧
    (∀ (st : ParseState) (raw : String),
        pyStartsWith (pyStrip raw) "#" = true → buildStep st raw = st) := by
  refine ⟨?_, ?_, ?_⟩
  · intro ls raw n h1 h2
    rw [looker_offset_append, Looker.offsetStep, if_pos h1, h2]
  · intro ls raw h
    rw [looker_offset_append, Looker.offsetStep]
    by_cases h1 : pyStartsWith (pyStrip raw) "# offset=" = true
    · rw [if_pos h1, h h1]
    · rw [if_neg h1]
  · intro st raw h
    rw [buildStep, if_pos (Or.inr h)]

/-- C1 witness: a later valid `# offset=5` overrides an earlier one, a
malformed `# offset=abc` leaves the prior value, and a `#` line leaves the
production parser's state untouched. -/
theorem offset_comment_amended_witness :
    Looker.parse_toc_offset (["# offset=9"] ++ ["# offset=5"]) = 5 ∧
    Looker.parse_toc_offset (["# offset=9"] ++ ["# offset=abc"]) =
      Looker.parse_toc_offset ["# offset=9"] ∧
    buildStep { revChapters := [], offset := 0 } "# offset=3" =
      { revChapters := [], offset := 0 } :=
  ⟨offset_comment_amended.1 ["# offset=9"] "# offset=5" 5 (by decide) (by decide),
   offset_comment_amended.2.1 ["# offset=9"] "# offset=abc" (fun _ => by decide),
   offset_comment_amended.2.2 { revChapters := [], offset := 0 } "# offset=3" (by decide)⟩

/-- C2: the production parser stores the raw `start`/`end` values written in
the grammar: the chapter output never depends on the running offset (so no
offset subtraction happens during parsing), and a chapter parsed after
`OFFSET|7` keeps `start=5`, `end=10` unchanged. -/
theorem parser_keeps_raw_start_end :
    (∀ (lines : List String) (s t : ParseState), s.revChapters = t.revChapters →
        (runLines s lines).revChapters = (runLines t lines).revChapters) ∧
    parse_toc_lines ["OFFSET|7", "CHAPTER|C1|Intro|start=5|end=10"] =
      { chapters := [{ code := "C1", title := "Intro", start := PValue.pInt 5,
                       end_ := PValue.pInt 10, sections := [] }],
        offset := 7 } :=
  ⟨fun lines s t h => runLines_rev_congr lines s t h, by decide⟩

/-- C2 witness: the chapters parsed from a line are the same whether the
running offset is 0 or 5. -/
theorem parser_keeps_raw_start_end_witness :
    (runLines { revChapters := [], offset := 0 } ["CHAPTER|X|Y|start=4"]).revChapters =
      (runLines { revChapters := [], offset := 5 } ["CHAPTER|X|Y|start=4"]).revChapters :=
  parser_keeps_raw_start_end.1 ["CHAPTER|X|Y|start=4"]
    { revChapters := [], offset := 0 } { revChapters := [], offset := 5 } rfl

/-- C3: the page-info loop of `build_looker` assigns to every page index `i`
the book page `i + 1 - offset`; for five pages and offset 3 the book pages
are `-2, -1, 0, 1, 2`. -/
theorem page_index_mapper_book_page :
    (∀ (images : List String) (offset : Int),
        (Looker.build_page_info images offset).map Looker.PageInfo.image_index =
          List.range images.length ∧
        (Looker.build_page_info images offset).map Looker.PageInfo.book_page =
          (List.range images.length).map (fun (i : Nat) => (i : Int) + 1 - offset)) ∧
    (Looker.build_page_info ["p1", "p2", "p3", "p4", "p5"] 3).map
        Looker.PageInfo.book_page = [-2, -1, 0, 1, 2] := by
  refine ⟨fun images offset => ⟨?_, ?_⟩, by decide⟩
  · rw [build_page_info_eq, List.map_map]
    exact List.map_id _
  · rw [build_page_info_eq, List.map_map]
    rfl

/-- C4 counterexample: the claim says every name without digits sorts after
every digit-bearing name, but a digit run of 1000000 exceeds the 999999
sentinel, so digit-less `abc.jpg` sorts before `1000000.jpg`. -/
theorem natural_sort_counterexample :
    find_images ["1000000.jpg", "abc.jpg"] = ["abc.jpg", "1000000.jpg"] ∧
    firstDigitNum "abc.jpg" = none ∧
    firstDigitNum "1000000.jpg" = some 1000000 :=
  ⟨by decide, by decide, by decide⟩

/-- C4 (amended): the sorter totally orders names by
`(first digit run, lower-cased name)` with sentinel 999999 for digit-less
names, and a digit-less name sorts after every name whose first digit run is
strictly below the sentinel (names with runs of 999999 or more may come
later). -/
theorem natural_sort_amended :
    ∀ files : List String,
      List.Sorted keyLE (find_images files) ∧
      (find_images files).Perm (files.filter isImageName) ∧
      (∀ (i j : Nat) (hi : i < (find_images files).length)
          (hj : j < (find_images files).length) (n : Nat),
          firstDigitNum ((find_images files).get ⟨i, hi⟩) = none →
          firstDigitNum ((find_images files).get ⟨j, hj⟩) = some n →
          n < 999999 → j < i) := by
  intro files
  have hs : List.Sorted keyLE (find_images files) :=
    List.sorted_insertionSort keyLE (files.filter isImageName)
  refine ⟨hs, List.perm_insertionSort keyLE (files.filter isImageName), ?_⟩
  intro i j hi hj n hnone hsome hlt
  by_contra hcon
  push_neg at hcon
  rcases Nat.lt_or_ge i j with hij | hij
  · have hrel := hs.rel_get_of_lt (a := ⟨i, hi⟩) (b := ⟨j, hj⟩) hij
    have ha : (num_key ((find_images files).get ⟨i, hi⟩)).1 = 999999 := by
      rw [num_key, hnone]
    have hb : (num_key ((find_images files).get ⟨j, hj⟩)).1 = n := by
      rw [num_key, hsome]
    rcases hrel with h | ⟨h, _⟩ <;> omega
  · have hij2 : i = j := le_antisymm hcon hij
    subst hij2
    rw [hnone] at hsome
    exact Option.noConfusion hsome

/-- C4 witness: on `["b2.jpg", "a.jpg"]` the output is sorted, and digit-less
`a.jpg` (index 1) comes after `b2.jpg` (digit run 2, index 0). -/
theorem natural_sort_amended_witness :
    List.Sorted keyLE (find_images ["b2.jpg", "a.jpg"]) ∧ (0 : Nat) < 1 :=
  ⟨(natural_sort_amended ["b2.jpg", "a.jpg"]).1,
   (natural_sort_amended ["b2.jpg", "a.jpg"]).2.2 1 0 (by decide) (by decide) 2
     (by decide) (by decide) (by decide)⟩

/-- C5: evaluating `find_pages_folder` at the failing input: the same set of
image-bearing subfolders, presented in the two enumeration orders, selects
two different subfolders, because the scan follows raw enumeration order. -/
theorem resolver_enum_order_dependent :
    find_pages_folder
        (BookDir.mk [] [Dir.mk "b" ["1.jpg"], Dir.mk "a" ["1.jpg"]]) =
      some (PagesResult.sub "b") ∧
    find_pages_folder
        (BookDir.mk [] [Dir.mk "a" ["1.jpg"], Dir.mk "b" ["1.jpg"]]) =
      some (PagesResult.sub "a") ∧
    [Dir.mk "b" ["1.jpg"], Dir.mk "a" ["1.jpg"]].Perm
      [Dir.mk "a" ["1.jpg"], Dir.mk "b" ["1.jpg"]] :=
  ⟨by decide, by decide, List.Perm.swap (Dir.mk "a" ["1.jpg"]) (Dir.mk "b" ["1.jpg"]) []⟩

/-- C6: the resolver never returns a subfolder whose lower-cased name is a
thumbnail alias, and on a book with only `Thumbs` and `pages` subfolders it
returns `pages`. -/
theorem resolver_never_thumbnail :
    (∀ (b : BookDir) (nm : String),
        find_pages_folder b = some (PagesResult.sub nm) →
        THUMB_NAMES.contains (pyLower nm) = false) ∧
    find_pages_folder
        (BookDir.mk [] [Dir.mk "Thumbs" ["001.jpg"], Dir.mk "pages" ["001.jpg"]]) =
      some (PagesResult.sub "pages") := by
  refine ⟨?_, by decide⟩
  intro b nm h
  rw [find_pages_folder] at h
  split_ifs at h with hroot
  · simp at h
  · obtain ⟨d, hd, hdn⟩ := Option.map_eq_some'.mp h
    have hp := List.find?_some hd
    rw [Bool.and_eq_true, Bool.not_eq_true'] at hp
    injection hdn with hname
    rw [← hname]
    exact hp.1

/-- C6 witness: `pages` is not a thumbnail alias, via the theorem applied to
the concrete `Thumbs`/`pages` book. -/
theorem resolver_never_thumbnail_witness :
    THUMB_NAMES.contains (pyLower "pages") = false :=
  resolver_never_thumbnail.1
    (BookDir.mk [] [Dir.mk "Thumbs" ["001.jpg"], Dir.mk "pages" ["001.jpg"]])
    "pages" (by decide)

/-- C7: an absent TOC file and an empty TOC file both parse to the empty TOC
Document with offset 0 (total function, no error path). -/
theorem empty_or_absent_toc :
    parse_toc none = { chapters := [], offset := 0 } ∧
    parse_toc (some "") = { chapters := [], offset := 0 } :=
  ⟨rfl, by decide⟩

/-- C8: an absent `start` key resolves to 1 and an absent `end` key resolves
to the resolved `start`; the two example inputs parse exactly as claimed. -/
theorem start_end_defaults :
    (∀ toks : List String, dictGet (kvPairs toks) "start" = none →
        startOf toks = PValue.pInt 1) ∧
    (∀ toks : List String, dictGet (kvPairs toks) "end" = none →
        endOf toks = startOf toks) ∧
    parse_toc (some "CHAPTER|C1|Intro|start=5|end=10") =
      { chapters := [{ code := "C1", title := "Intro", start := PValue.pInt 5,
                       end_ := PValue.pInt 10, sections := [] }],
        offset := 0 } ∧
    parse_toc (some "CHAPTER|C1|Intro\nSECTION|S1|Sub|start=3") =
      { chapters := [{ code := "C1", title := "Intro", start := PValue.pInt 1,
                       end_ := PValue.pInt 1,
                       sections := [{ code := "S1", title := "Sub",
                                      start := PValue.pInt 3,
                                      end_ := PValue.pInt 3 }] }],
        offset := 0 } := by
  refine ⟨?_, ?_, by decide, by decide⟩
  · intro toks h
    rw [startOf, h]
    rfl
  · intro toks h
    rw [endOf, h]
    rfl

/-- C8 witness: a record with only `x=1` gets `start = 1`, and a record with
only `start=4` gets `end = start`. -/
theorem start_end_defaults_witness :
    startOf ["x=1"] = PValue.pInt 1 ∧ endOf ["start=4"] = startOf ["start=4"] :=
  ⟨start_end_defaults.1 ["x=1"] (by decide),
   start_end_defaults.2.1 ["start=4"] (by decide)⟩

/-- C9: a `SECTION` record before any `CHAPTER` is skipped: the document has
zero chapters (hence zero sections) and parsing does not fail. -/
theorem orphan_section_dropped :
    parse_toc (some "SECTION|S1|Sub|start=1") = { chapters := [], offset := 0 } := by
  decide

/-- C10: in `build.py`, a non-comment line whose first token upper-cases to
`OFFSET` with at least two tokens sets the offset to the Python-int value of
its second token; an invalid integer leaves the state untouched; the last
such line determines the final offset. -/
theorem offset_record_semantics :
    (∀ (st : ParseState) (raw : String) (k v : String) (rest : List String) (n : Int),
        tokensOf (pyStrip raw) = k :: v :: rest →
        pyStartsWith (pyStrip raw) "#" = false →
        pyUpper k = "OFFSET" →
        pyInt v = some n →
        buildStep st raw = { st with offset := n }) ∧
    (∀ (st : ParseState) (raw : String) (k v : String) (rest : List String),
        tokensOf (pyStrip raw) = k :: v :: rest →
        pyStartsWith (pyStrip raw) "#" = false →
        pyUpper k = "OFFSET" →
        pyInt v = none →
        buildStep st raw = st) ∧
    (∀ (lines : List String) (raw : String) (k v : String) (rest : List String) (n : Int),
        tokensOf (pyStrip raw) = k :: v :: rest →
        pyStartsWith (pyStrip raw) "#" = false →
        pyUpper k = "OFFSET" →
        pyInt v = some n →
        (runLines { revChapters := [], offset := 0 } (lines ++ [raw])).offset = n) := by
  have hne : ∀ (raw : String) (k v : String) (rest : List String),
      tokensOf (pyStrip raw) = k :: v :: rest → ¬ pyStrip raw = "" := by
    intro raw k v rest htok he
    rw [he] at htok
    have h0 : tokensOf "" = [] := by decide
    rw [h0] at htok
    exact List.noConfusion htok
  have key : ∀ (st : ParseState) (raw : String) (k v : String) (rest : List String) (n : Int),
      tokensOf (pyStrip raw) = k :: v :: rest →
      pyStartsWith (pyStrip raw) "#" = false →
      pyUpper k = "OFFSET" →
      pyInt v = some n →
      buildStep st raw = { st with offset := n } := by
    intro st raw k v rest n htok hsw hk hn
    rw [buildStep, if_neg (by simp [hne raw k v rest htok, hsw]), htok, recordStep,
        if_pos ⟨hk, by simp⟩]
    have hg : (k :: v :: rest).getD 1 "" = v := rfl
    rw [hg, hn]
  refine ⟨key, ?_, ?_⟩
  · intro st raw k v rest htok hsw hk hn
    rw [buildStep, if_neg (by simp [hne raw k v rest htok, hsw]), htok, recordStep,
        if_pos ⟨hk, by simp⟩]
    have hg : (k :: v :: rest).getD 1 "" = v := rfl
    rw [hg, hn]
  · intro lines raw k v rest n htok hsw hk hn
    have hsplit : runLines { revChapters := [], offset := 0 } (lines ++ [raw]) =
        buildStep (runLines { revChapters := [], offset := 0 } lines) raw := by
      simp [runLines, List.foldl_append]
    rw [hsplit, key (runLines { revChapters := [], offset := 0 } lines) raw k v rest n
      htok hsw hk hn]

/-- C10 witness: `offset|5` sets the offset to 5, `OFFSET|abc` leaves it at
7, and of two `OFFSET` lines the later one (9) wins. -/
theorem offset_record_semantics_witness :
    buildStep { revChapters := [], offset := 0 } "offset|5" =
      { revChapters := [], offset := 5 } ∧
    buildStep { revChapters := [], offset := 7 } "OFFSET|abc" =
      { revChapters := [], offset := 7 } ∧
    (runLines { revChapters := [], offset := 0 } (["OFFSET|3"] ++ ["OFFSET|9"])).offset = 9 :=
  ⟨offset_record_semantics.1 { revChapters := [], offset := 0 } "offset|5" "offset" "5" [] 5
      (by decide) (by decide) (by decide) (by decide),
   offset_record_semantics.2.1 { revChapters := [], offset := 7 } "OFFSET|abc" "OFFSET" "abc" []
      (by decide) (by decide) (by decide) (by decide),
   offset_record_semantics.2.2 ["OFFSET|3"] "OFFSET|9" "OFFSET" "9" [] 9
      (by decide) (by decide) (by decide) (by decide)⟩
